import Mathlib

/-!
Verification of the `octopt` CHIP-8 options library (Rust).

The development is a shallow embedding of the library's data model and its
two serializer/deserializer pairs:

* the structured ("JSON") codec of `src/lib.rs` (`impl fmt::Display for
  Options` / `impl FromStr for Options`, derived through serde), and
* the flat ("INI") codec of `src/ini.rs` (`OctoOptionsIni` and its field
  mappings, `Options::from_ini` / `Options::to_ini`).

Both serde codecs are modelled at the level of the serde data model: a wire
document is a flat association list of keys to atomic JSON values
(`JsonObj`), which is exactly the shape both derived (de)serializers
produce and consume (all nested groups are `#[serde(flatten)]`ed into the
top-level object).  The textual printing/parsing of that object is done by
the external `serde_json` crate and is outside the embedding boundary.
Numeric wire values are modelled as integers (the library never emits or
meaningfully consumes fractional numbers).

The external crate `css_color_parser2` (used by `src/color.rs`) is likewise
outside the repository; it is modelled faithfully on its hexadecimal
grammar (`#RGB`, `#RGBA`, `#RRGGBB`, `#RRGGBBAA`, after space-stripping and
lowercasing), with the CSS keyword / functional forms — which the claims
never exercise — modelled as parse failure.
-/

set_option maxRecDepth 4000

/-- Atomic wire values of the serde data model as used by this library:
integers, strings and booleans.  (The library's wire format never contains
nulls, arrays or nested objects at value position.) -/
inductive JsonVal where
  | num (n : Int)
  | str (s : String)
  | bool (b : Bool)
deriving DecidableEq, Repr

/-- A wire document: a flat association list of field keys to values. -/
abbrev JsonObj := List (String × JsonVal)

/-- Deserialization errors surfaced by the serde codecs of this library. -/
inductive DeErr where
  /-- serde's `invalid_value(Unexpected::Unsigned(n), "zero or one")`,
  raised by `some_bool_from_int` for an integer outside `{0, 1}`. -/
  | invalidValue (n : Nat)
  /-- An untagged enum (`BoolOrU8`, `U16OrStr`) matched no variant. -/
  | untagged
  /-- A value of the wrong serde type for the target field. -/
  | invalidType
  /-- The `ColorVisitor`'s custom "Failed to parse hex color" error. -/
  | colorParse (s : String)
  /-- An enum string or repr code matching no variant. -/
  | invalidVariant
deriving DecidableEq, Repr

/-- Field lookup in a wire document, as serde's derived deserializers match
incoming keys against known field names. -/
def jsonLookup (k : String) : JsonObj → Option JsonVal
  | [] => none
  | (k', v) :: rest => if k = k' then some v else jsonLookup k rest

@[simp]
theorem jsonLookup_nil (k : String) : jsonLookup k [] = none := rfl

@[simp]
theorem jsonLookup_cons (k k' : String) (v : JsonVal) (rest : JsonObj) :
    jsonLookup k ((k', v) :: rest) = if k = k' then some v else jsonLookup k rest := rfl

@[simp]
theorem except_ok_bind {ε α β : Type} (a : α) (f : α → Except ε β) :
    (Except.ok a >>= f) = f a := rfl

@[simp]
theorem except_error_bind {ε α β : Type} (e : ε) (f : α → Except ε β) :
    ((Except.error e : Except ε α) >>= f) = Except.error e := rfl

theorem except_bind_ok {ε α β : Type} {a : Except ε α} {f : α → Except ε β} {b : β}
    (h : (a >>= f) = Except.ok b) : ∃ x, a = Except.ok x ∧ f x = Except.ok b := by
  cases a with
  | ok x => exact ⟨x, rfl, h⟩
  | error e => exact absurd h (by simp [Bind.bind, Except.bind])

/-- Unsigned 8-bit values. -/
abbrev U8 := Fin 256

/-- Unsigned 16-bit values. -/
abbrev U16 := Fin 65536

/-- Rust's `str::parse` for an unsigned integer type with maximum value
`maxVal` (`u8::from_str`, `u16::from_str`): an optional leading `'+'`,
then one or more ASCII digits, with overflow rejected. -/
def parseUnsigned (maxVal : Nat) (s : String) : Option Nat :=
  let cs := match s.data with
    | '+' :: rest => rest
    | cs => cs
  if cs.isEmpty then none
  else if cs.all Char.isDigit then
    let v := cs.foldl (fun acc c => 10 * acc + (c.toNat - 48)) 0
    if v ≤ maxVal then some v else none
  else none

/-- Rust's `str::parse::<u8>()`, as used by `ini.rs`'s `some_bool_from_int`. -/
def parseU8 (s : String) : Option U8 :=
  match parseUnsigned 255 s with
  | some v => if h : v < 256 then some ⟨v, h⟩ else none
  | none => none

/-- Rust's `str::parse::<u16>()`, as used by `some_u16_from_int_or_str`. -/
def parseU16 (s : String) : Option U16 :=
  match parseUnsigned 65535 s with
  | some v => if h : v < 65536 then some ⟨v, h⟩ else none
  | none => none

/-- The `Color` struct of `src/color.rs`: an RGB triplet of `u8` channels. -/
structure Color where
  r : U8
  g : U8
  b : U8
deriving DecidableEq, Repr

/-- Value of a single lowercase hexadecimal digit character (codepoints
48–57 are the decimal digits, 97–102 are `a`–`f`; the css crate lowercases
its input before matching, so uppercase digits never reach this point). -/
def hexDigitVal (c : Char) : Option (Fin 16) :=
  let n := c.toNat
  if hd : 48 ≤ n ∧ n ≤ 57 then some ⟨n - 48, by omega⟩
  else if hl : 97 ≤ n ∧ n ≤ 102 then some ⟨n - 87, by omega⟩
  else none

/-- Uppercase hexadecimal digit character for a value below 16, as produced
by Rust's `{:02X}` formatting. -/
def hexDigitCharU (n : Nat) : Char :=
  match n with
  | 0 => '0' | 1 => '1' | 2 => '2' | 3 => '3' | 4 => '4' | 5 => '5'
  | 6 => '6' | 7 => '7' | 8 => '8' | 9 => '9' | 10 => 'A' | 11 => 'B'
  | 12 => 'C' | 13 => 'D' | 14 => 'E' | _ => 'F'

/-- The two uppercase hex digits of a byte, Rust's `{:02X}`. -/
def toHex2 (n : Nat) : List Char :=
  [hexDigitCharU (n / 16), hexDigitCharU (n % 16)]

/-- Value of a pair of lowercase hex digit characters, high digit first. -/
def hexPair (a b : Char) : Option U8 :=
  match hexDigitVal a, hexDigitVal b with
  | some x, some y => some ⟨16 * x.val + y.val, by omega⟩
  | _, _ => none

/-- The `impl fmt::Display for Color` of `src/color.rs`:
`write!(f, "#{:02X}{:02X}{:02X}", self.r, self.g, self.b)`. -/
def colorToString (c : Color) : String :=
  ⟨'#' :: (toHex2 c.r.val ++ toHex2 c.g.val ++ toHex2 c.b.val)⟩

/-- Input normalization performed by the external `css_color_parser2`
crate before matching its color grammar: spaces removed, lowercased. -/
def cssNormalize (s : String) : List Char :=
  (s.data.filter (fun c => c ≠ ' ')).map Char.toLower

/-- Hexadecimal fragment of the external `css_color_parser2` crate's color
grammar: a `'#'` followed by 3, 4, 6 or 8 hex digits; any alpha digits are
validated and then discarded.  CSS keyword and functional (`rgb()` …)
forms, which this repository's claims never exercise, are modelled as
parse failure. -/
def cssParseColor (s : String) : Option Color :=
  match cssNormalize s with
  | '#' :: ds =>
    match ds with
    | [a, b, c] => do
      let x ← hexDigitVal a
      let y ← hexDigitVal b
      let z ← hexDigitVal c
      pure ⟨⟨17 * x.val, by omega⟩, ⟨17 * y.val, by omega⟩, ⟨17 * z.val, by omega⟩⟩
    | [a, b, c, d] => do
      let x ← hexDigitVal a
      let y ← hexDigitVal b
      let z ← hexDigitVal c
      let _ ← hexDigitVal d
      pure ⟨⟨17 * x.val, by omega⟩, ⟨17 * y.val, by omega⟩, ⟨17 * z.val, by omega⟩⟩
    | [a, b, c, d, e, f] => do
      let x ← hexPair a b
      let y ← hexPair c d
      let z ← hexPair e f
      pure ⟨x, y, z⟩
    | [a, b, c, d, e, f, g, h] => do
      let x ← hexPair a b
      let y ← hexPair c d
      let z ← hexPair e f
      let _ ← hexPair g h
      pure ⟨x, y, z⟩
    | _ => none
  | _ => none

/-- The `impl FromStr for Color` of `src/color.rs`: try the CSS grammar on
the input as given; if that fails, retry with a `'#'` prefix prepended;
only the R, G, B channels are kept. -/
def colorFromStr (s : String) : Option Color :=
  (cssParseColor s).elim (cssParseColor ("#" ++ s)) some

/-- The `TouchMode` enum of `src/lib.rs` (serde `rename_all = "lowercase"`). -/
inductive TouchMode where
  | None
  | Swipe
  | Seg16
  | Seg16Fill
  | Gamepad
  | Vip
deriving DecidableEq, Repr

/-- The `Font` enum of `src/lib.rs` (serde `rename_all = "lowercase"`). -/
inductive Font where
  | Octo
  | Vip
  | Dream6800
  | Eti660
  | Schip
  | Fish
  | AKouZ1
deriving DecidableEq, Repr

/-- The `ScreenRotation` enum of `src/lib.rs` (`serde_repr` over `u16`
codes 0, 90, 180, 270). -/
inductive ScreenRotation where
  | Normal
  | ClockWise
  | UpsideDown
  | CounterClockWise
deriving DecidableEq, Repr

/-- The `LoResDxy0Behavior` enum of `src/lib.rs`
(serde `rename_all = "snake_case"`). -/
inductive LoResDxy0Behavior where
  | NoOp
  | TallSprite
  | BigSprite
deriving DecidableEq, Repr

/-- The `Colors` struct of `src/lib.rs`: six independent optional slots. -/
structure Colors where
  fill_color : Option Color
  fill_color2 : Option Color
  blend_color : Option Color
  background_color : Option Color
  buzz_color : Option Color
  quiet_color : Option Color
deriving DecidableEq, Repr

/-- The `Quirks` struct of `src/lib.rs`: thirteen tri-state flags plus the
optional `LoResDxy0Behavior`. -/
structure Quirks where
  shift : Option Bool
  load_store : Option Bool
  jump0 : Option Bool
  logic : Option Bool
  clip : Option Bool
  vblank : Option Bool
  vf_order : Option Bool
  lores_dxy0 : Option LoResDxy0Behavior
  res_clear : Option Bool
  delay_wrap : Option Bool
  hires_collision : Option Bool
  clip_collision : Option Bool
  scroll : Option Bool
  overflow_i : Option Bool
deriving DecidableEq, Repr

/-- The `Options` struct of `src/lib.rs`: the aggregate root. -/
structure Options where
  tickrate : Option U16
  max_size : Option U16
  screen_rotation : ScreenRotation
  font_style : Font
  touch_input_mode : TouchMode
  start_address : Option U16
  colors : Colors
  quirks : Quirks
deriving DecidableEq, Repr

/-- The `impl Default for Colors` of `src/lib.rs`. -/
def Colors.default : Colors :=
  { fill_color := some ⟨255, 255, 255⟩
    fill_color2 := some ⟨255, 255, 0⟩
    blend_color := some ⟨255, 0, 0⟩
    background_color := some ⟨0, 0, 0⟩
    buzz_color := some ⟨153, 0, 0⟩
    quiet_color := some ⟨51, 0, 0⟩ }

/-- The `impl Default for Quirks` of `src/lib.rs`. -/
def Quirks.default : Quirks :=
  { shift := some false
    load_store := some false
    jump0 := some false
    logic := some false
    clip := some false
    vblank := some false
    vf_order := some false
    lores_dxy0 := some LoResDxy0Behavior.BigSprite
    res_clear := some true
    delay_wrap := some false
    hires_collision := some false
    clip_collision := some false
    scroll := some false
    overflow_i := some false }

/-- The `impl Default for Options` of `src/lib.rs`. -/
def Options.default : Options :=
  { tickrate := some 500
    max_size := some 3584
    screen_rotation := ScreenRotation.Normal
    font_style := Font.Octo
    touch_input_mode := TouchMode.None
    start_address := some 512
    colors := Colors.default
    quirks := Quirks.default }

/-- The all-`None` / default-enum `Options` value that deserializing the
empty document must produce (this is a specification-side value, distinct
from `Options.default`). -/
def emptyOptions : Options :=
  { tickrate := none
    max_size := none
    screen_rotation := ScreenRotation.Normal
    font_style := Font.Octo
    touch_input_mode := TouchMode.None
    start_address := none
    colors :=
      { fill_color := none, fill_color2 := none, blend_color := none
        background_color := none, buzz_color := none, quiet_color := none }
    quirks :=
      { shift := none, load_store := none, jump0 := none, logic := none
        clip := none, vblank := none, vf_order := none, lores_dxy0 := none
        res_clear := none, delay_wrap := none, hires_collision := none
        clip_collision := none, scroll := none, overflow_i := none } }

/-- Structured-format wire spelling of `TouchMode` (`rename_all = "lowercase"`). -/
def touchModeToStr : TouchMode → String
  | .None => "none"
  | .Swipe => "swipe"
  | .Seg16 => "seg16"
  | .Seg16Fill => "seg16fill"
  | .Gamepad => "gamepad"
  | .Vip => "vip"

/-- Structured-format decoding of `TouchMode` strings. -/
def touchModeFromStr : String → Option TouchMode
  | "none" => some .None
  | "swipe" => some .Swipe
  | "seg16" => some .Seg16
  | "seg16fill" => some .Seg16Fill
  | "gamepad" => some .Gamepad
  | "vip" => some .Vip
  | _ => none

/-- Structured-format wire spelling of `Font` (`rename_all = "lowercase"`). -/
def fontToStr : Font → String
  | .Octo => "octo"
  | .Vip => "vip"
  | .Dream6800 => "dream6800"
  | .Eti660 => "eti660"
  | .Schip => "schip"
  | .Fish => "fish"
  | .AKouZ1 => "akouz1"

/-- Structured-format decoding of `Font` strings. -/
def fontFromStr : String → Option Font
  | "octo" => some .Octo
  | "vip" => some .Vip
  | "dream6800" => some .Dream6800
  | "eti660" => some .Eti660
  | "schip" => some .Schip
  | "fish" => some .Fish
  | "akouz1" => some .AKouZ1
  | _ => none

/-- Wire spelling of `LoResDxy0Behavior` (`rename_all = "snake_case"`,
identical in both formats). -/
def loresToStr : LoResDxy0Behavior → String
  | .NoOp => "no_op"
  | .TallSprite => "tall_sprite"
  | .BigSprite => "big_sprite"

/-- Decoding of `LoResDxy0Behavior` strings. -/
def loresFromStr : String → Option LoResDxy0Behavior
  | "no_op" => some .NoOp
  | "tall_sprite" => some .TallSprite
  | "big_sprite" => some .BigSprite
  | _ => none

/-- Numeric `serde_repr` code of `ScreenRotation` (`repr(u16)`). -/
def rotationCode : ScreenRotation → Nat
  | .Normal => 0
  | .ClockWise => 90
  | .UpsideDown => 180
  | .CounterClockWise => 270

/-- Decoding of `ScreenRotation` repr codes. -/
def rotationFromCode (n : Int) : Option ScreenRotation :=
  if n = 0 then some .Normal
  else if n = 90 then some .ClockWise
  else if n = 180 then some .UpsideDown
  else if n = 270 then some .CounterClockWise
  else none

/-- Serialization of one optional field under `#[skip_serializing_none]`:
`Some` is written under its key, `None` is omitted entirely. -/
def encOpt {α : Type} (key : String) (f : α → JsonVal) : Option α → JsonObj
  | some a => [(key, f a)]
  | none => []

/-- The serde-derived serializer behind `impl fmt::Display for Options`
(`src/lib.rs`): camelCase keys, `Colors` and `Quirks` flattened into the
top-level object, `None` fields omitted, colors as `"#RRGGBB"` strings,
rotation as its numeric code, quirk flags as JSON booleans (the `Quirks`
struct in `lib.rs` has no custom `serialize_with`). -/
def encodeOptions (o : Options) : JsonObj :=
  encOpt "tickrate" (fun n => .num n.val) o.tickrate ++
  encOpt "maxSize" (fun n => .num n.val) o.max_size ++
  [("screenRotation", .num (rotationCode o.screen_rotation))] ++
  [("fontStyle", .str (fontToStr o.font_style))] ++
  [("touchInputMode", .str (touchModeToStr o.touch_input_mode))] ++
  encOpt "startAddress" (fun n => .num n.val) o.start_address ++
  encOpt "fillColor" (fun c => .str (colorToString c)) o.colors.fill_color ++
  encOpt "fillColor2" (fun c => .str (colorToString c)) o.colors.fill_color2 ++
  encOpt "blendColor" (fun c => .str (colorToString c)) o.colors.blend_color ++
  encOpt "backgroundColor" (fun c => .str (colorToString c)) o.colors.background_color ++
  encOpt "buzzColor" (fun c => .str (colorToString c)) o.colors.buzz_color ++
  encOpt "quietColor" (fun c => .str (colorToString c)) o.colors.quiet_color ++
  encOpt "shiftQuirks" JsonVal.bool o.quirks.shift ++
  encOpt "loadStoreQuirks" JsonVal.bool o.quirks.load_store ++
  encOpt "jumpQuirks" JsonVal.bool o.quirks.jump0 ++
  encOpt "logicQuirks" JsonVal.bool o.quirks.logic ++
  encOpt "clipQuirks" JsonVal.bool o.quirks.clip ++
  encOpt "vBlankQuirks" JsonVal.bool o.quirks.vblank ++
  encOpt "vfOrderQuirks" JsonVal.bool o.quirks.vf_order ++
  encOpt "loresDXY0Quirks" (fun l => .str (loresToStr l)) o.quirks.lores_dxy0 ++
  encOpt "resClearQuirks" JsonVal.bool o.quirks.res_clear ++
  encOpt "delayWrapQuirks" JsonVal.bool o.quirks.delay_wrap ++
  encOpt "hiresCollisionQuirks" JsonVal.bool o.quirks.hires_collision ++
  encOpt "clipCollisionQuirks" JsonVal.bool o.quirks.clip_collision ++
  encOpt "scrollQuirks" JsonVal.bool o.quirks.scroll ++
  encOpt "overflowIQuirks" JsonVal.bool o.quirks.overflow_i

/-- Deserialization of a `u16` from a wire integer, as serde does for the
untagged `U16OrStr::U16` variant: in-range integers only. -/
def u16FromNum (n : Int) : Option U16 :=
  if h : 0 ≤ n ∧ n < 65536 then some ⟨n.toNat, by omega⟩ else none

/-- The `some_u16_from_int_or_str` helper of `src/lib.rs`: an untagged
`U16OrStr` union; a native in-range integer yields `Some`, a string yields
`Some` when it parses as `u16` and `None` (silently) when it does not; any
other shape fails the untagged match. -/
def some_u16_from_int_or_str (v : JsonVal) : Except DeErr (Option U16) :=
  match v with
  | .num n => (u16FromNum n).elim (.error .untagged) (fun m => .ok (some m))
  | .str s => .ok (parseU16 s)
  | .bool _ => .error .untagged

/-- The `some_bool_from_int` helper of `src/lib.rs`: an untagged `BoolOrU8`
union; a native boolean yields `Some(b)`, integer `1`/`0` yield
`Some(true)`/`Some(false)`, any other `u8` fails with serde's
invalid-value error carrying the offending value, and an integer outside
the `u8` range (or any other shape) fails the untagged match. -/
def some_bool_from_int (v : JsonVal) : Except DeErr (Option Bool) :=
  match v with
  | .bool b => .ok (some b)
  | .num n =>
    if n = 1 then .ok (some true)
    else if n = 0 then .ok (some false)
    else if 0 ≤ n ∧ n ≤ 255 then .error (.invalidValue n.toNat)
    else .error .untagged
  | .str _ => .error .untagged

/-- Field access for a field carrying `#[serde(default, deserialize_with =
…)]` (or an implicit-`None` `Option` field): an absent key yields the
default `none` without error, a present key runs the field decoder. -/
def decWith {α : Type} (key : String) (dec : JsonVal → Except DeErr (Option α))
    (obj : JsonObj) : Except DeErr (Option α) :=
  (jsonLookup key obj).elim (.ok none) dec

/-- Value-level deserialization of a `Color` (`ColorVisitor` of
`src/color.rs`): `deserialize_str` demands a string and runs
`Color::from_str` on it, turning failure into the visitor's custom error. -/
def colorValDe (v : JsonVal) : Except DeErr (Option Color) :=
  match v with
  | .str s => (colorFromStr s).elim (.error (.colorParse s)) (fun c => .ok (some c))
  | _ => .error .invalidType

/-- Deserialization of an `Option<Color>` field: absent yields `None`; a
present value must be a string accepted by `Color::from_str`. -/
def decColorOpt (key : String) (obj : JsonObj) : Except DeErr (Option Color) :=
  (jsonLookup key obj).elim (.ok none) colorValDe

/-- Value-level deserialization of a string-spelled enum: the wire value
must be a string matching one of the variant spellings. -/
def enumStrValDe {α : Type} (fromStr : String → Option α) (v : JsonVal) : Except DeErr α :=
  match v with
  | .str s => (fromStr s).elim (.error .invalidVariant) .ok
  | _ => .error .invalidType

/-- Field access for a non-optional string-spelled enum field with
`#[serde(default)]`. -/
def decEnumStrD {α : Type} (key : String) (fromStr : String → Option α) (dflt : α)
    (obj : JsonObj) : Except DeErr α :=
  (jsonLookup key obj).elim (.ok dflt) (enumStrValDe fromStr)

/-- Value-level deserialization of `ScreenRotation` (`serde_repr`): the
wire value must be one of the numeric codes 0, 90, 180, 270. -/
def rotationValDe (v : JsonVal) : Except DeErr ScreenRotation :=
  match v with
  | .num n => (rotationFromCode n).elim (.error .invalidVariant) .ok
  | _ => .error .invalidType

/-- Field access for the `screen_rotation` field (`serde_repr` with
`#[serde(default)]`): absent yields `Normal`. -/
def decRotationD (key : String) (obj : JsonObj) : Except DeErr ScreenRotation :=
  (jsonLookup key obj).elim (.ok ScreenRotation.Normal) rotationValDe

/-- Value-level deserialization of `LoResDxy0Behavior` (snake_case
string-spelled). -/
def loresValDe (v : JsonVal) : Except DeErr (Option LoResDxy0Behavior) :=
  match v with
  | .str s => (loresFromStr s).elim (.error .invalidVariant) (fun l => .ok (some l))
  | _ => .error .invalidType

/-- Deserialization of the `lores_dxy0` field (`Option<LoResDxy0Behavior>`,
implicit `None` on absence). -/
def decLoresOpt (key : String) (obj : JsonObj) :
    Except DeErr (Option LoResDxy0Behavior) :=
  (jsonLookup key obj).elim (.ok none) loresValDe

/-- The serde-derived deserializer behind `impl FromStr for Options`
(`src/lib.rs`): each field is located by its camelCase key in the (single,
flattened) wire object; absent optional fields become `None`, absent
non-optional enums take their `Default`; unknown keys are ignored (the
`flatten` collector behaviour). -/
def decodeOptions (obj : JsonObj) : Except DeErr Options := do
  let tickrate ← decWith "tickrate" some_u16_from_int_or_str obj
  let max_size ← decWith "maxSize" some_u16_from_int_or_str obj
  let screen_rotation ← decRotationD "screenRotation" obj
  let font_style ← decEnumStrD "fontStyle" fontFromStr Font.Octo obj
  let touch_input_mode ← decEnumStrD "touchInputMode" touchModeFromStr TouchMode.None obj
  let start_address ← decWith "startAddress" some_u16_from_int_or_str obj
  let fill_color ← decColorOpt "fillColor" obj
  let fill_color2 ← decColorOpt "fillColor2" obj
  let blend_color ← decColorOpt "blendColor" obj
  let background_color ← decColorOpt "backgroundColor" obj
  let buzz_color ← decColorOpt "buzzColor" obj
  let quiet_color ← decColorOpt "quietColor" obj
  let shift ← decWith "shiftQuirks" some_bool_from_int obj
  let load_store ← decWith "loadStoreQuirks" some_bool_from_int obj
  let jump0 ← decWith "jumpQuirks" some_bool_from_int obj
  let logic ← decWith "logicQuirks" some_bool_from_int obj
  let clip ← decWith "clipQuirks" some_bool_from_int obj
  let vblank ← decWith "vBlankQuirks" some_bool_from_int obj
  let vf_order ← decWith "vfOrderQuirks" some_bool_from_int obj
  let lores_dxy0 ← decLoresOpt "loresDXY0Quirks" obj
  let res_clear ← decWith "resClearQuirks" some_bool_from_int obj
  let delay_wrap ← decWith "delayWrapQuirks" some_bool_from_int obj
  let hires_collision ← decWith "hiresCollisionQuirks" some_bool_from_int obj
  let clip_collision ← decWith "clipCollisionQuirks" some_bool_from_int obj
  let scroll ← decWith "scrollQuirks" some_bool_from_int obj
  let overflow_i ← decWith "overflowIQuirks" some_bool_from_int obj
  pure
    { tickrate, max_size, screen_rotation, font_style, touch_input_mode, start_address
      colors :=
        { fill_color, fill_color2, blend_color, background_color, buzz_color, quiet_color }
      quirks :=
        { shift, load_store, jump0, logic, clip, vblank, vf_order, lores_dxy0
          res_clear, delay_wrap, hires_collision, clip_collision, scroll, overflow_i } }

deriving instance DecidableEq for Except

theorem jsonLookup_encOpt {α : Type} (k k' : String) (f : α → JsonVal) (a : Option α)
    (rest : JsonObj) :
    jsonLookup k (encOpt k' f a ++ rest) =
      if k = k' then
        match a with
        | some x => some (f x)
        | none => jsonLookup k rest
      else jsonLookup k rest := by
  cases a <;> by_cases h : k = k' <;> simp [encOpt, h]

theorem jsonLookup_encOpt_single {α : Type} (k k' : String) (f : α → JsonVal) (a : Option α) :
    jsonLookup k (encOpt k' f a) =
      if k = k' then a.map f else none := by
  cases a <;> by_cases h : k = k' <;> simp [encOpt, h]

theorem hexDigitCharU_ne_space (n : Nat) : hexDigitCharU n ≠ ' ' := by
  unfold hexDigitCharU; split <;> decide

theorem hexPair_toHex2 (n : U8) :
    hexPair (Char.toLower (hexDigitCharU (n.val / 16)))
      (Char.toLower (hexDigitCharU (n.val % 16))) = some n := by
  revert n; decide

theorem cssParseColor_colorToString (c : Color) : cssParseColor (colorToString c) = some c := by
  obtain ⟨r, g, b⟩ := c
  simp only [cssParseColor, cssNormalize, colorToString, toHex2]
  simp [List.filter, hexDigitCharU_ne_space, hexPair_toHex2]

theorem colorFromStr_colorToString (c : Color) : colorFromStr (colorToString c) = some c := by
  simp [colorFromStr, cssParseColor_colorToString]

theorem u16FromNum_val (n : U16) : u16FromNum (n.val : Int) = some n := by
  unfold u16FromNum
  split
  · exact congrArg some (Fin.ext (show ((n.val : Int)).toNat = n.val by omega))
  · next h => exact absurd (by have := n.isLt; constructor <;> omega) h

theorem some_u16_num (n : U16) : some_u16_from_int_or_str (.num (n.val : Int)) = .ok (some n) := by
  simp only [some_u16_from_int_or_str]
  rw [u16FromNum_val n]
  rfl

theorem some_bool_bool (b : Bool) : some_bool_from_int (.bool b) = .ok (some b) := rfl

theorem fontFromStr_fontToStr (f : Font) : fontFromStr (fontToStr f) = some f := by
  cases f <;> rfl

theorem touchModeFromStr_touchModeToStr (t : TouchMode) :
    touchModeFromStr (touchModeToStr t) = some t := by
  cases t <;> rfl

theorem loresFromStr_loresToStr (l : LoResDxy0Behavior) :
    loresFromStr (loresToStr l) = some l := by
  cases l <;> rfl

theorem rotationFromCode_rotationCode (r : ScreenRotation) :
    rotationFromCode (rotationCode r) = some r := by
  cases r <;> rfl

theorem colorValDe_rt (c : Color) : colorValDe (.str (colorToString c)) = .ok (some c) := by
  simp only [colorValDe]
  rw [colorFromStr_colorToString, Option.elim_some]

theorem enumStrValDe_rt {α : Type} (fromStr : String → Option α) (toStr : α → String)
    (h : ∀ a, fromStr (toStr a) = some a) (a : α) :
    enumStrValDe fromStr (.str (toStr a)) = .ok a := by
  simp only [enumStrValDe]
  rw [h a, Option.elim_some]

theorem rotationValDe_rt (r : ScreenRotation) :
    rotationValDe (.num (rotationCode r)) = .ok r := by
  simp only [rotationValDe]
  rw [rotationFromCode_rotationCode, Option.elim_some]

theorem loresValDe_rt (l : LoResDxy0Behavior) :
    loresValDe (.str (loresToStr l)) = .ok (some l) := by
  simp only [loresValDe]
  rw [loresFromStr_loresToStr, Option.elim_some]


theorem lookup_enc_tickrate (o : Options) :
    jsonLookup "tickrate" (encodeOptions o) = (o.tickrate).map (fun n => .num n.val) := by
  simp only [encodeOptions, List.append_assoc]
  simp [jsonLookup_encOpt, jsonLookup_encOpt_single]
  cases o.tickrate <;> simp

theorem dec_enc_tickrate (o : Options) :
    decWith "tickrate" some_u16_from_int_or_str (encodeOptions o) = .ok o.tickrate := by
  rw [decWith, lookup_enc_tickrate]
  cases o.tickrate with
  | none => rfl
  | some n => rw [Option.map_some', Option.elim_some]; exact some_u16_num n

theorem lookup_enc_maxSize (o : Options) :
    jsonLookup "maxSize" (encodeOptions o) = (o.max_size).map (fun n => .num n.val) := by
  simp only [encodeOptions, List.append_assoc]
  simp [jsonLookup_encOpt, jsonLookup_encOpt_single]
  cases o.max_size <;> simp

theorem dec_enc_maxSize (o : Options) :
    decWith "maxSize" some_u16_from_int_or_str (encodeOptions o) = .ok o.max_size := by
  rw [decWith, lookup_enc_maxSize]
  cases o.max_size with
  | none => rfl
  | some n => rw [Option.map_some', Option.elim_some]; exact some_u16_num n

theorem lookup_enc_rotation (o : Options) :
    jsonLookup "screenRotation" (encodeOptions o) = some (.num (rotationCode o.screen_rotation)) := by
  simp only [encodeOptions, List.append_assoc]
  simp [jsonLookup_encOpt, jsonLookup_encOpt_single]

theorem dec_enc_rotation (o : Options) :
    decRotationD "screenRotation" (encodeOptions o) = .ok o.screen_rotation := by
  rw [decRotationD, lookup_enc_rotation, Option.elim_some]
  exact rotationValDe_rt o.screen_rotation

theorem lookup_enc_fontStyle (o : Options) :
    jsonLookup "fontStyle" (encodeOptions o) = some (.str (fontToStr o.font_style)) := by
  simp only [encodeOptions, List.append_assoc]
  simp [jsonLookup_encOpt, jsonLookup_encOpt_single]

theorem dec_enc_fontStyle (o : Options) :
    decEnumStrD "fontStyle" fontFromStr Font.Octo (encodeOptions o) = .ok o.font_style := by
  rw [decEnumStrD, lookup_enc_fontStyle, Option.elim_some]
  exact enumStrValDe_rt fontFromStr fontToStr fontFromStr_fontToStr o.font_style

theorem lookup_enc_touchMode (o : Options) :
    jsonLookup "touchInputMode" (encodeOptions o) = some (.str (touchModeToStr o.touch_input_mode)) := by
  simp only [encodeOptions, List.append_assoc]
  simp [jsonLookup_encOpt, jsonLookup_encOpt_single]

theorem dec_enc_touchMode (o : Options) :
    decEnumStrD "touchInputMode" touchModeFromStr TouchMode.None (encodeOptions o) = .ok o.touch_input_mode := by
  rw [decEnumStrD, lookup_enc_touchMode, Option.elim_some]
  exact enumStrValDe_rt touchModeFromStr touchModeToStr touchModeFromStr_touchModeToStr o.touch_input_mode

theorem lookup_enc_startAddress (o : Options) :
    jsonLookup "startAddress" (encodeOptions o) = (o.start_address).map (fun n => .num n.val) := by
  simp only [encodeOptions, List.append_assoc]
  simp [jsonLookup_encOpt, jsonLookup_encOpt_single]
  cases o.start_address <;> simp

theorem dec_enc_startAddress (o : Options) :
    decWith "startAddress" some_u16_from_int_or_str (encodeOptions o) = .ok o.start_address := by
  rw [decWith, lookup_enc_startAddress]
  cases o.start_address with
  | none => rfl
  | some n => rw [Option.map_some', Option.elim_some]; exact some_u16_num n

theorem lookup_enc_fillColor (o : Options) :
    jsonLookup "fillColor" (encodeOptions o) = (o.colors.fill_color).map (fun c => .str (colorToString c)) := by
  simp only [encodeOptions, List.append_assoc]
  simp [jsonLookup_encOpt, jsonLookup_encOpt_single]
  cases o.colors.fill_color <;> simp

theorem dec_enc_fillColor (o : Options) :
    decColorOpt "fillColor" (encodeOptions o) = .ok o.colors.fill_color := by
  rw [decColorOpt, lookup_enc_fillColor]
  cases o.colors.fill_color with
  | none => rfl
  | some c => rw [Option.map_some', Option.elim_some]; exact colorValDe_rt c

theorem lookup_enc_fillColor2 (o : Options) :
    jsonLookup "fillColor2" (encodeOptions o) = (o.colors.fill_color2).map (fun c => .str (colorToString c)) := by
  simp only [encodeOptions, List.append_assoc]
  simp [jsonLookup_encOpt, jsonLookup_encOpt_single]
  cases o.colors.fill_color2 <;> simp

theorem dec_enc_fillColor2 (o : Options) :
    decColorOpt "fillColor2" (encodeOptions o) = .ok o.colors.fill_color2 := by
  rw [decColorOpt, lookup_enc_fillColor2]
  cases o.colors.fill_color2 with
  | none => rfl
  | some c => rw [Option.map_some', Option.elim_some]; exact colorValDe_rt c

theorem lookup_enc_blendColor (o : Options) :
    jsonLookup "blendColor" (encodeOptions o) = (o.colors.blend_color).map (fun c => .str (colorToString c)) := by
  simp only [encodeOptions, List.append_assoc]
  simp [jsonLookup_encOpt, jsonLookup_encOpt_single]
  cases o.colors.blend_color <;> simp

theorem dec_enc_blendColor (o : Options) :
    decColorOpt "blendColor" (encodeOptions o) = .ok o.colors.blend_color := by
  rw [decColorOpt, lookup_enc_blendColor]
  cases o.colors.blend_color with
  | none => rfl
  | some c => rw [Option.map_some', Option.elim_some]; exact colorValDe_rt c

theorem lookup_enc_backgroundColor (o : Options) :
    jsonLookup "backgroundColor" (encodeOptions o) = (o.colors.background_color).map (fun c => .str (colorToString c)) := by
  simp only [encodeOptions, List.append_assoc]
  simp [jsonLookup_encOpt, jsonLookup_encOpt_single]
  cases o.colors.background_color <;> simp

theorem dec_enc_backgroundColor (o : Options) :
    decColorOpt "backgroundColor" (encodeOptions o) = .ok o.colors.background_color := by
  rw [decColorOpt, lookup_enc_backgroundColor]
  cases o.colors.background_color with
  | none => rfl
  | some c => rw [Option.map_some', Option.elim_some]; exact colorValDe_rt c

theorem lookup_enc_buzzColor (o : Options) :
    jsonLookup "buzzColor" (encodeOptions o) = (o.colors.buzz_color).map (fun c => .str (colorToString c)) := by
  simp only [encodeOptions, List.append_assoc]
  simp [jsonLookup_encOpt, jsonLookup_encOpt_single]
  cases o.colors.buzz_color <;> simp

theorem dec_enc_buzzColor (o : Options) :
    decColorOpt "buzzColor" (encodeOptions o) = .ok o.colors.buzz_color := by
  rw [decColorOpt, lookup_enc_buzzColor]
  cases o.colors.buzz_color with
  | none => rfl
  | some c => rw [Option.map_some', Option.elim_some]; exact colorValDe_rt c

theorem lookup_enc_quietColor (o : Options) :
    jsonLookup "quietColor" (encodeOptions o) = (o.colors.quiet_color).map (fun c => .str (colorToString c)) := by
  simp only [encodeOptions, List.append_assoc]
  simp [jsonLookup_encOpt, jsonLookup_encOpt_single]
  cases o.colors.quiet_color <;> simp

theorem dec_enc_quietColor (o : Options) :
    decColorOpt "quietColor" (encodeOptions o) = .ok o.colors.quiet_color := by
  rw [decColorOpt, lookup_enc_quietColor]
  cases o.colors.quiet_color with
  | none => rfl
  | some c => rw [Option.map_some', Option.elim_some]; exact colorValDe_rt c

theorem lookup_enc_shift (o : Options) :
    jsonLookup "shiftQuirks" (encodeOptions o) = (o.quirks.shift).map JsonVal.bool := by
  simp only [encodeOptions, List.append_assoc]
  simp [jsonLookup_encOpt, jsonLookup_encOpt_single]
  cases o.quirks.shift <;> simp

theorem dec_enc_shift (o : Options) :
    decWith "shiftQuirks" some_bool_from_int (encodeOptions o) = .ok o.quirks.shift := by
  rw [decWith, lookup_enc_shift]
  cases o.quirks.shift with
  | none => rfl
  | some b => rw [Option.map_some', Option.elim_some]; exact some_bool_bool b

theorem lookup_enc_loadStore (o : Options) :
    jsonLookup "loadStoreQuirks" (encodeOptions o) = (o.quirks.load_store).map JsonVal.bool := by
  simp only [encodeOptions, List.append_assoc]
  simp [jsonLookup_encOpt, jsonLookup_encOpt_single]
  cases o.quirks.load_store <;> simp

theorem dec_enc_loadStore (o : Options) :
    decWith "loadStoreQuirks" some_bool_from_int (encodeOptions o) = .ok o.quirks.load_store := by
  rw [decWith, lookup_enc_loadStore]
  cases o.quirks.load_store with
  | none => rfl
  | some b => rw [Option.map_some', Option.elim_some]; exact some_bool_bool b

theorem lookup_enc_jump0 (o : Options) :
    jsonLookup "jumpQuirks" (encodeOptions o) = (o.quirks.jump0).map JsonVal.bool := by
  simp only [encodeOptions, List.append_assoc]
  simp [jsonLookup_encOpt, jsonLookup_encOpt_single]
  cases o.quirks.jump0 <;> simp

theorem dec_enc_jump0 (o : Options) :
    decWith "jumpQuirks" some_bool_from_int (encodeOptions o) = .ok o.quirks.jump0 := by
  rw [decWith, lookup_enc_jump0]
  cases o.quirks.jump0 with
  | none => rfl
  | some b => rw [Option.map_some', Option.elim_some]; exact some_bool_bool b

theorem lookup_enc_logic (o : Options) :
    jsonLookup "logicQuirks" (encodeOptions o) = (o.quirks.logic).map JsonVal.bool := by
  simp only [encodeOptions, List.append_assoc]
  simp [jsonLookup_encOpt, jsonLookup_encOpt_single]
  cases o.quirks.logic <;> simp

theorem dec_enc_logic (o : Options) :
    decWith "logicQuirks" some_bool_from_int (encodeOptions o) = .ok o.quirks.logic := by
  rw [decWith, lookup_enc_logic]
  cases o.quirks.logic with
  | none => rfl
  | some b => rw [Option.map_some', Option.elim_some]; exact some_bool_bool b

theorem lookup_enc_clip (o : Options) :
    jsonLookup "clipQuirks" (encodeOptions o) = (o.quirks.clip).map JsonVal.bool := by
  simp only [encodeOptions, List.append_assoc]
  simp [jsonLookup_encOpt, jsonLookup_encOpt_single]
  cases o.quirks.clip <;> simp

theorem dec_enc_clip (o : Options) :
    decWith "clipQuirks" some_bool_from_int (encodeOptions o) = .ok o.quirks.clip := by
  rw [decWith, lookup_enc_clip]
  cases o.quirks.clip with
  | none => rfl
  | some b => rw [Option.map_some', Option.elim_some]; exact some_bool_bool b

theorem lookup_enc_vblank (o : Options) :
    jsonLookup "vBlankQuirks" (encodeOptions o) = (o.quirks.vblank).map JsonVal.bool := by
  simp only [encodeOptions, List.append_assoc]
  simp [jsonLookup_encOpt, jsonLookup_encOpt_single]
  cases o.quirks.vblank <;> simp

theorem dec_enc_vblank (o : Options) :
    decWith "vBlankQuirks" some_bool_from_int (encodeOptions o) = .ok o.quirks.vblank := by
  rw [decWith, lookup_enc_vblank]
  cases o.quirks.vblank with
  | none => rfl
  | some b => rw [Option.map_some', Option.elim_some]; exact some_bool_bool b

theorem lookup_enc_vfOrder (o : Options) :
    jsonLookup "vfOrderQuirks" (encodeOptions o) = (o.quirks.vf_order).map JsonVal.bool := by
  simp only [encodeOptions, List.append_assoc]
  simp [jsonLookup_encOpt, jsonLookup_encOpt_single]
  cases o.quirks.vf_order <;> simp

theorem dec_enc_vfOrder (o : Options) :
    decWith "vfOrderQuirks" some_bool_from_int (encodeOptions o) = .ok o.quirks.vf_order := by
  rw [decWith, lookup_enc_vfOrder]
  cases o.quirks.vf_order with
  | none => rfl
  | some b => rw [Option.map_some', Option.elim_some]; exact some_bool_bool b

theorem lookup_enc_lores (o : Options) :
    jsonLookup "loresDXY0Quirks" (encodeOptions o) = (o.quirks.lores_dxy0).map (fun l => .str (loresToStr l)) := by
  simp only [encodeOptions, List.append_assoc]
  simp [jsonLookup_encOpt, jsonLookup_encOpt_single]
  cases o.quirks.lores_dxy0 <;> simp

theorem dec_enc_lores (o : Options) :
    decLoresOpt "loresDXY0Quirks" (encodeOptions o) = .ok o.quirks.lores_dxy0 := by
  rw [decLoresOpt, lookup_enc_lores]
  cases o.quirks.lores_dxy0 with
  | none => rfl
  | some l => rw [Option.map_some', Option.elim_some]; exact loresValDe_rt l

theorem lookup_enc_resClear (o : Options) :
    jsonLookup "resClearQuirks" (encodeOptions o) = (o.quirks.res_clear).map JsonVal.bool := by
  simp only [encodeOptions, List.append_assoc]
  simp [jsonLookup_encOpt, jsonLookup_encOpt_single]
  cases o.quirks.res_clear <;> simp

theorem dec_enc_resClear (o : Options) :
    decWith "resClearQuirks" some_bool_from_int (encodeOptions o) = .ok o.quirks.res_clear := by
  rw [decWith, lookup_enc_resClear]
  cases o.quirks.res_clear with
  | none => rfl
  | some b => rw [Option.map_some', Option.elim_some]; exact some_bool_bool b

theorem lookup_enc_delayWrap (o : Options) :
    jsonLookup "delayWrapQuirks" (encodeOptions o) = (o.quirks.delay_wrap).map JsonVal.bool := by
  simp only [encodeOptions, List.append_assoc]
  simp [jsonLookup_encOpt, jsonLookup_encOpt_single]
  cases o.quirks.delay_wrap <;> simp

theorem dec_enc_delayWrap (o : Options) :
    decWith "delayWrapQuirks" some_bool_from_int (encodeOptions o) = .ok o.quirks.delay_wrap := by
  rw [decWith, lookup_enc_delayWrap]
  cases o.quirks.delay_wrap with
  | none => rfl
  | some b => rw [Option.map_some', Option.elim_some]; exact some_bool_bool b

theorem lookup_enc_hiresCollision (o : Options) :
    jsonLookup "hiresCollisionQuirks" (encodeOptions o) = (o.quirks.hires_collision).map JsonVal.bool := by
  simp only [encodeOptions, List.append_assoc]
  simp [jsonLookup_encOpt, jsonLookup_encOpt_single]
  cases o.quirks.hires_collision <;> simp

theorem dec_enc_hiresCollision (o : Options) :
    decWith "hiresCollisionQuirks" some_bool_from_int (encodeOptions o) = .ok o.quirks.hires_collision := by
  rw [decWith, lookup_enc_hiresCollision]
  cases o.quirks.hires_collision with
  | none => rfl
  | some b => rw [Option.map_some', Option.elim_some]; exact some_bool_bool b

theorem lookup_enc_clipCollision (o : Options) :
    jsonLookup "clipCollisionQuirks" (encodeOptions o) = (o.quirks.clip_collision).map JsonVal.bool := by
  simp only [encodeOptions, List.append_assoc]
  simp [jsonLookup_encOpt, jsonLookup_encOpt_single]
  cases o.quirks.clip_collision <;> simp

theorem dec_enc_clipCollision (o : Options) :
    decWith "clipCollisionQuirks" some_bool_from_int (encodeOptions o) = .ok o.quirks.clip_collision := by
  rw [decWith, lookup_enc_clipCollision]
  cases o.quirks.clip_collision with
  | none => rfl
  | some b => rw [Option.map_some', Option.elim_some]; exact some_bool_bool b

theorem lookup_enc_scroll (o : Options) :
    jsonLookup "scrollQuirks" (encodeOptions o) = (o.quirks.scroll).map JsonVal.bool := by
  simp only [encodeOptions, List.append_assoc]
  simp [jsonLookup_encOpt, jsonLookup_encOpt_single]
  cases o.quirks.scroll <;> simp

theorem dec_enc_scroll (o : Options) :
    decWith "scrollQuirks" some_bool_from_int (encodeOptions o) = .ok o.quirks.scroll := by
  rw [decWith, lookup_enc_scroll]
  cases o.quirks.scroll with
  | none => rfl
  | some b => rw [Option.map_some', Option.elim_some]; exact some_bool_bool b

theorem lookup_enc_overflowI (o : Options) :
    jsonLookup "overflowIQuirks" (encodeOptions o) = (o.quirks.overflow_i).map JsonVal.bool := by
  simp only [encodeOptions, List.append_assoc]
  simp [jsonLookup_encOpt, jsonLookup_encOpt_single]

theorem dec_enc_overflowI (o : Options) :
    decWith "overflowIQuirks" some_bool_from_int (encodeOptions o) = .ok o.quirks.overflow_i := by
  rw [decWith, lookup_enc_overflowI]
  cases o.quirks.overflow_i with
  | none => rfl
  | some b => rw [Option.map_some', Option.elim_some]; exact some_bool_bool b

/-- C1: structured-format round trip — decoding the wire object produced
by serializing any `Options` value through the structured (JSON) codec
yields that value back. -/
theorem C1_structured_roundtrip (o : Options) :
    decodeOptions (encodeOptions o) = .ok o := by
  rw [decodeOptions]
  rw [dec_enc_tickrate, except_ok_bind, dec_enc_maxSize, except_ok_bind,
    dec_enc_rotation, except_ok_bind, dec_enc_fontStyle, except_ok_bind,
    dec_enc_touchMode, except_ok_bind, dec_enc_startAddress, except_ok_bind,
    dec_enc_fillColor, except_ok_bind, dec_enc_fillColor2, except_ok_bind,
    dec_enc_blendColor, except_ok_bind, dec_enc_backgroundColor, except_ok_bind,
    dec_enc_buzzColor, except_ok_bind, dec_enc_quietColor, except_ok_bind,
    dec_enc_shift, except_ok_bind, dec_enc_loadStore, except_ok_bind,
    dec_enc_jump0, except_ok_bind, dec_enc_logic, except_ok_bind,
    dec_enc_clip, except_ok_bind, dec_enc_vblank, except_ok_bind,
    dec_enc_vfOrder, except_ok_bind, dec_enc_lores, except_ok_bind,
    dec_enc_resClear, except_ok_bind, dec_enc_delayWrap, except_ok_bind,
    dec_enc_hiresCollision, except_ok_bind, dec_enc_clipCollision, except_ok_bind,
    dec_enc_scroll, except_ok_bind, dec_enc_overflowI, except_ok_bind]
  rfl

/-- Result of running code that may panic: Rust's `.unwrap()` on an `Err`
aborts the computation rather than returning to the caller. -/
inductive PanicOr (α : Type) where
  | panics
  | ok (a : α)
deriving DecidableEq, Repr

/-- The `without_hash` serializer of `src/ini.rs`: a color's display string
with a leading `'#'` stripped (`&color_str[1..]` when it starts with
`'#'`). -/
def withoutHash (s : String) : String :=
  match s.data with
  | '#' :: rest => ⟨rest⟩
  | _ => s

/-- The `int_from_some_bool` serializer of `src/ini.rs`:
`serialize_u8(if some_bool.unwrap() { 1 } else { 0 })` (the field is
already known to be `Some` because `None` fields are skipped). -/
def int_from_some_bool (b : Bool) : JsonVal :=
  .num (if b then 1 else 0)

/-- Flat-format wire spelling of `OctoFontIni` (`rename_all =
"snake_case"`; this differs from the structured format only on `AKouZ1`). -/
def fontIniToStr : Font → String
  | .Octo => "octo"
  | .Vip => "vip"
  | .Dream6800 => "dream6800"
  | .Eti660 => "eti660"
  | .Schip => "schip"
  | .Fish => "fish"
  | .AKouZ1 => "a_kou_z1"

/-- Flat-format decoding of `OctoFontIni` strings. -/
def fontIniFromStr : String → Option Font
  | "octo" => some .Octo
  | "vip" => some .Vip
  | "dream6800" => some .Dream6800
  | "eti660" => some .Eti660
  | "schip" => some .Schip
  | "fish" => some .Fish
  | "a_kou_z1" => some .AKouZ1
  | _ => none

/-- Flat-format wire spelling of `OctoTouchModeIni` (`rename_all =
"lowercase"`, identical to the structured spellings). -/
def touchIniToStr : TouchMode → String
  | .None => "none"
  | .Swipe => "swipe"
  | .Seg16 => "seg16"
  | .Seg16Fill => "seg16fill"
  | .Gamepad => "gamepad"
  | .Vip => "vip"

/-- Flat-format decoding of `OctoTouchModeIni` strings. -/
def touchIniFromStr : String → Option TouchMode
  | "none" => some .None
  | "swipe" => some .Swipe
  | "seg16" => some .Seg16
  | "seg16fill" => some .Seg16Fill
  | "gamepad" => some .Gamepad
  | "vip" => some .Vip
  | _ => none

/-- Serialization behind `Options::to_ini` as the source wires it:
`Options` is converted to `OctoOptionsIni` by the field-identity `From`
impls of `src/ini.rs`, and that struct's derived serializer writes the
dotted lowercase keys, colors through `without_hash`, quirk flags through
`int_from_some_bool` as integers `1`/`0`, with `None` fields skipped.
(The `Display` impl of `OctoOptionsIni` then prints the object through
`serde_json::to_string`, so the wire object below is what lands in the
output text.) -/
def encodeOptionsIni (o : Options) : JsonObj :=
  encOpt "core.tickrate" (fun n => .num n.val) o.tickrate ++
  encOpt "core.max_rom" (fun n => .num n.val) o.max_size ++
  [("core.rotation", .num (rotationCode o.screen_rotation))] ++
  [("core.font", .str (fontIniToStr o.font_style))] ++
  [("core.touch_mode", .str (touchIniToStr o.touch_input_mode))] ++
  encOpt "core.start_address" (fun n => .num n.val) o.start_address ++
  encOpt "colors.plane1" (fun c => .str (withoutHash (colorToString c))) o.colors.fill_color ++
  encOpt "colors.plane2" (fun c => .str (withoutHash (colorToString c))) o.colors.fill_color2 ++
  encOpt "colors.plane3" (fun c => .str (withoutHash (colorToString c))) o.colors.blend_color ++
  encOpt "colors.plane0" (fun c => .str (withoutHash (colorToString c))) o.colors.background_color ++
  encOpt "colors.sound" (fun c => .str (withoutHash (colorToString c))) o.colors.buzz_color ++
  encOpt "colors.background" (fun c => .str (withoutHash (colorToString c))) o.colors.quiet_color ++
  encOpt "quirks.shift" int_from_some_bool o.quirks.shift ++
  encOpt "quirks.loadstore" int_from_some_bool o.quirks.load_store ++
  encOpt "quirks.jump0" int_from_some_bool o.quirks.jump0 ++
  encOpt "quirks.logic" int_from_some_bool o.quirks.logic ++
  encOpt "quirks.clip" int_from_some_bool o.quirks.clip ++
  encOpt "quirks.vblank" int_from_some_bool o.quirks.vblank ++
  encOpt "quirks.vforder" int_from_some_bool o.quirks.vf_order ++
  encOpt "quirks.lores_dxy0" (fun l => .str (loresToStr l)) o.quirks.lores_dxy0 ++
  encOpt "quirks.resclear" int_from_some_bool o.quirks.res_clear ++
  encOpt "quirks.delaywrap" int_from_some_bool o.quirks.delay_wrap ++
  encOpt "quirks.hirescollision" int_from_some_bool o.quirks.hires_collision ++
  encOpt "quirks.clipcollision" int_from_some_bool o.quirks.clip_collision ++
  encOpt "quirks.scroll" int_from_some_bool o.quirks.scroll ++
  encOpt "quirks.overflow_i" int_from_some_bool o.quirks.overflow_i

/-- The `some_bool_from_int` deserializer of `src/ini.rs`, applied to the
string the wire supplied:
`match (String::deserialize(d)?).parse::<u8>().unwrap() { 1 => …, 0 => …,
other => invalid_value }`.  The `.unwrap()` panics when the string does
not parse as a `u8`. -/
def iniSomeBoolFromInt (s : String) : PanicOr (Except DeErr (Option Bool)) :=
  (parseU8 s).elim .panics fun n =>
    .ok (if n.val = 1 then .ok (some true)
      else if n.val = 0 then .ok (some false)
      else .error (.invalidValue n.val))

/-- Field access for an `OctoQuirksIni` flag (`default` +
`deserialize_with = "some_bool_from_int"`): absent yields `None`; a
present value must deserialize as a `String` first (anything else is a
type error) and is then fed to `iniSomeBoolFromInt`. -/
def decIniQuirkBool (key : String) (obj : JsonObj) : PanicOr (Except DeErr (Option Bool)) :=
  (jsonLookup key obj).elim (.ok (.ok none)) fun v =>
    match v with
    | .str s => iniSomeBoolFromInt s
    | _ => .ok (.error .invalidType)

/-- Value-level deserialization of a plain `u16` (the `core.tickrate`,
`core.max_rom` and `core.start_address` fields of `OctoOptionsIni` have no
tolerant codec): only an in-range integer is accepted. -/
def u16ValDe (v : JsonVal) : Except DeErr (Option U16) :=
  match v with
  | .num n => (u16FromNum n).elim (.error .invalidType) (fun m => .ok (some m))
  | _ => .error .invalidType

/-- Field access for a plain `Option<u16>` field with `#[serde(default)]`. -/
def decIniU16Opt (key : String) (obj : JsonObj) : Except DeErr (Option U16) :=
  (jsonLookup key obj).elim (.ok none) u16ValDe

/-- Lift a non-panicking field decoder into the panic-aware computation. -/
def plift {α : Type} (x : Except DeErr α) : PanicOr (Except DeErr α) := .ok x

/-- Sequencing of panic-aware fallible steps: a panic aborts everything, an
error short-circuits to the caller. -/
def pbind {α β : Type} (x : PanicOr (Except DeErr α))
    (f : α → PanicOr (Except DeErr β)) : PanicOr (Except DeErr β) :=
  match x with
  | .panics => .panics
  | .ok (.error e) => .ok (.error e)
  | .ok (.ok a) => f a

/-- Deserialization behind `Options::from_ini` as the source wires it: the
derived deserializer of `OctoOptionsIni` locates each dotted lowercase key
in the wire object, unknown keys are ignored, absent fields take their
serde defaults, and the resulting `OctoOptionsIni` is converted to
`Options` by the field-identity `From` impl.  Deserializing a quirk flag
can panic (see `iniSomeBoolFromInt`), so the whole computation is
panic-aware. -/
def decodeOptionsIni (obj : JsonObj) : PanicOr (Except DeErr Options) :=
  pbind (plift (decIniU16Opt "core.tickrate" obj)) fun tickrate =>
  pbind (plift (decIniU16Opt "core.max_rom" obj)) fun max_size =>
  pbind (plift (decRotationD "core.rotation" obj)) fun screen_rotation =>
  pbind (plift (decEnumStrD "core.font" fontIniFromStr Font.Octo obj)) fun font_style =>
  pbind (plift (decEnumStrD "core.touch_mode" touchIniFromStr TouchMode.None obj)) fun touch_input_mode =>
  pbind (plift (decIniU16Opt "core.start_address" obj)) fun start_address =>
  pbind (plift (decColorOpt "colors.plane1" obj)) fun fill_color =>
  pbind (plift (decColorOpt "colors.plane2" obj)) fun fill_color2 =>
  pbind (plift (decColorOpt "colors.plane3" obj)) fun blend_color =>
  pbind (plift (decColorOpt "colors.plane0" obj)) fun background_color =>
  pbind (plift (decColorOpt "colors.sound" obj)) fun buzz_color =>
  pbind (plift (decColorOpt "colors.background" obj)) fun quiet_color =>
  pbind (decIniQuirkBool "quirks.shift" obj) fun shift =>
  pbind (decIniQuirkBool "quirks.loadstore" obj) fun load_store =>
  pbind (decIniQuirkBool "quirks.jump0" obj) fun jump0 =>
  pbind (decIniQuirkBool "quirks.logic" obj) fun logic =>
  pbind (decIniQuirkBool "quirks.clip" obj) fun clip =>
  pbind (decIniQuirkBool "quirks.vblank" obj) fun vblank =>
  pbind (decIniQuirkBool "quirks.vforder" obj) fun vf_order =>
  pbind (plift (decLoresOpt "quirks.lores_dxy0" obj)) fun lores_dxy0 =>
  pbind (decIniQuirkBool "quirks.resclear" obj) fun res_clear =>
  pbind (decIniQuirkBool "quirks.delaywrap" obj) fun delay_wrap =>
  pbind (decIniQuirkBool "quirks.hirescollision" obj) fun hires_collision =>
  pbind (decIniQuirkBool "quirks.clipcollision" obj) fun clip_collision =>
  pbind (decIniQuirkBool "quirks.scroll" obj) fun scroll =>
  pbind (decIniQuirkBool "quirks.overflow_i" obj) fun overflow_i =>
  .ok (.ok
    { tickrate, max_size, screen_rotation, font_style, touch_input_mode, start_address
      colors :=
        { fill_color, fill_color2, blend_color, background_color, buzz_color, quiet_color }
      quirks :=
        { shift, load_store, jump0, logic, clip, vblank, vf_order, lores_dxy0
          res_clear, delay_wrap, hires_collision, clip_collision, scroll, overflow_i } })

theorem decWith_absent {α : Type} (key : String) (dec : JsonVal → Except DeErr (Option α))
    (obj : JsonObj) (h : jsonLookup key obj = none) : decWith key dec obj = .ok none := by
  rw [decWith, h, Option.elim_none]

theorem decLoresOpt_absent (key : String) (obj : JsonObj)
    (h : jsonLookup key obj = none) : decLoresOpt key obj = .ok none := by
  rw [decLoresOpt, h, Option.elim_none]

theorem decColorOpt_absent (key : String) (obj : JsonObj)
    (h : jsonLookup key obj = none) : decColorOpt key obj = .ok none := by
  rw [decColorOpt, h, Option.elim_none]

theorem some_u16_str (s : String) :
    some_u16_from_int_or_str (.str s) = .ok (parseU16 s) := by
  simp only [some_u16_from_int_or_str]

theorem some_bool_from_int_u8 (n : Nat) (hle : n ≤ 255) (h0 : n ≠ 0) (h1 : n ≠ 1) :
    some_bool_from_int (.num (n : Int)) = .error (.invalidValue n) := by
  simp only [some_bool_from_int]
  rw [if_neg (by omega), if_neg (by omega), if_pos (by constructor <;> omega)]
  have ht : ((n : Int)).toNat = n := by omega
  rw [ht]

theorem some_bool_from_int_big (n : Int) (h : 255 < n) :
    some_bool_from_int (.num n) = .error .untagged := by
  simp only [some_bool_from_int]
  rw [if_neg (by omega), if_neg (by omega), if_neg (by omega)]

theorem decodeOptions_ok_proj {obj : JsonObj} {o : Options}
    (h : decodeOptions obj = .ok o) :
    decWith "tickrate" some_u16_from_int_or_str obj = .ok o.tickrate ∧
    decWith "maxSize" some_u16_from_int_or_str obj = .ok o.max_size ∧
    decWith "startAddress" some_u16_from_int_or_str obj = .ok o.start_address ∧
    decColorOpt "fillColor" obj = .ok o.colors.fill_color ∧
    decColorOpt "fillColor2" obj = .ok o.colors.fill_color2 ∧
    decColorOpt "blendColor" obj = .ok o.colors.blend_color ∧
    decColorOpt "backgroundColor" obj = .ok o.colors.background_color ∧
    decColorOpt "buzzColor" obj = .ok o.colors.buzz_color ∧
    decColorOpt "quietColor" obj = .ok o.colors.quiet_color ∧
    decWith "shiftQuirks" some_bool_from_int obj = .ok o.quirks.shift ∧
    decWith "loadStoreQuirks" some_bool_from_int obj = .ok o.quirks.load_store ∧
    decWith "jumpQuirks" some_bool_from_int obj = .ok o.quirks.jump0 ∧
    decWith "logicQuirks" some_bool_from_int obj = .ok o.quirks.logic ∧
    decWith "clipQuirks" some_bool_from_int obj = .ok o.quirks.clip ∧
    decWith "vBlankQuirks" some_bool_from_int obj = .ok o.quirks.vblank ∧
    decWith "vfOrderQuirks" some_bool_from_int obj = .ok o.quirks.vf_order ∧
    decLoresOpt "loresDXY0Quirks" obj = .ok o.quirks.lores_dxy0 ∧
    decWith "resClearQuirks" some_bool_from_int obj = .ok o.quirks.res_clear ∧
    decWith "delayWrapQuirks" some_bool_from_int obj = .ok o.quirks.delay_wrap ∧
    decWith "hiresCollisionQuirks" some_bool_from_int obj = .ok o.quirks.hires_collision ∧
    decWith "clipCollisionQuirks" some_bool_from_int obj = .ok o.quirks.clip_collision ∧
    decWith "scrollQuirks" some_bool_from_int obj = .ok o.quirks.scroll ∧
    decWith "overflowIQuirks" some_bool_from_int obj = .ok o.quirks.overflow_i := by
  rw [decodeOptions] at h
  obtain ⟨x1, e1, h⟩ := except_bind_ok h
  obtain ⟨x2, e2, h⟩ := except_bind_ok h
  obtain ⟨x3, e3, h⟩ := except_bind_ok h
  obtain ⟨x4, e4, h⟩ := except_bind_ok h
  obtain ⟨x5, e5, h⟩ := except_bind_ok h
  obtain ⟨x6, e6, h⟩ := except_bind_ok h
  obtain ⟨x7, e7, h⟩ := except_bind_ok h
  obtain ⟨x8, e8, h⟩ := except_bind_ok h
  obtain ⟨x9, e9, h⟩ := except_bind_ok h
  obtain ⟨x10, e10, h⟩ := except_bind_ok h
  obtain ⟨x11, e11, h⟩ := except_bind_ok h
  obtain ⟨x12, e12, h⟩ := except_bind_ok h
  obtain ⟨x13, e13, h⟩ := except_bind_ok h
  obtain ⟨x14, e14, h⟩ := except_bind_ok h
  obtain ⟨x15, e15, h⟩ := except_bind_ok h
  obtain ⟨x16, e16, h⟩ := except_bind_ok h
  obtain ⟨x17, e17, h⟩ := except_bind_ok h
  obtain ⟨x18, e18, h⟩ := except_bind_ok h
  obtain ⟨x19, e19, h⟩ := except_bind_ok h
  obtain ⟨x20, e20, h⟩ := except_bind_ok h
  obtain ⟨x21, e21, h⟩ := except_bind_ok h
  obtain ⟨x22, e22, h⟩ := except_bind_ok h
  obtain ⟨x23, e23, h⟩ := except_bind_ok h
  obtain ⟨x24, e24, h⟩ := except_bind_ok h
  obtain ⟨x25, e25, h⟩ := except_bind_ok h
  obtain ⟨x26, e26, h⟩ := except_bind_ok h
  injection h with h
  subst h
  exact ⟨e1, e2, e6, e7, e8, e9, e10, e11, e12, e13, e14, e15, e16, e17, e18, e19,
    e20, e21, e22, e23, e24, e25, e26⟩

/-- Uppercase hexadecimal digit characters, the alphabet produced by
Rust's `{:02X}` formatting. -/
def isUpperHexDigit (ch : Char) : Bool :=
  "0123456789ABCDEF".data.contains ch

theorem hexDigitCharU_isUpperHex (n : Nat) : isUpperHexDigit (hexDigitCharU n) = true := by
  unfold hexDigitCharU
  split <;> decide

theorem lookup_encIni_plane0 (o : Options) :
    jsonLookup "colors.plane0" (encodeOptionsIni o) =
      o.colors.background_color.map (fun c => .str (withoutHash (colorToString c))) := by
  simp only [encodeOptionsIni, List.append_assoc]
  simp [jsonLookup_encOpt, jsonLookup_encOpt_single]
  cases o.colors.background_color <;> simp

theorem lookup_encIni_background (o : Options) :
    jsonLookup "colors.background" (encodeOptionsIni o) =
      o.colors.quiet_color.map (fun c => .str (withoutHash (colorToString c))) := by
  simp only [encodeOptionsIni, List.append_assoc]
  simp [jsonLookup_encOpt, jsonLookup_encOpt_single]
  cases o.colors.quiet_color <;> simp

/-- C3: decoding the empty structured document succeeds and yields the
all-`None` / default-enum `Options` value, and, for any document a
successful decode of which yields `o`, each optional field whose key is
absent from the document decodes to `None` — it is never fabricated as
`Some` from a group-level default. -/
theorem C3_empty_document_and_absent_keys :
    decodeOptions [] = .ok emptyOptions ∧
    ∀ (obj : JsonObj) (o : Options), decodeOptions obj = .ok o →
      (jsonLookup "tickrate" obj = none → o.tickrate = none) ∧
      (jsonLookup "maxSize" obj = none → o.max_size = none) ∧
      (jsonLookup "startAddress" obj = none → o.start_address = none) ∧
      (jsonLookup "fillColor" obj = none → o.colors.fill_color = none) ∧
      (jsonLookup "fillColor2" obj = none → o.colors.fill_color2 = none) ∧
      (jsonLookup "blendColor" obj = none → o.colors.blend_color = none) ∧
      (jsonLookup "backgroundColor" obj = none → o.colors.background_color = none) ∧
      (jsonLookup "buzzColor" obj = none → o.colors.buzz_color = none) ∧
      (jsonLookup "quietColor" obj = none → o.colors.quiet_color = none) ∧
      (jsonLookup "shiftQuirks" obj = none → o.quirks.shift = none) ∧
      (jsonLookup "loadStoreQuirks" obj = none → o.quirks.load_store = none) ∧
      (jsonLookup "jumpQuirks" obj = none → o.quirks.jump0 = none) ∧
      (jsonLookup "logicQuirks" obj = none → o.quirks.logic = none) ∧
      (jsonLookup "clipQuirks" obj = none → o.quirks.clip = none) ∧
      (jsonLookup "vBlankQuirks" obj = none → o.quirks.vblank = none) ∧
      (jsonLookup "vfOrderQuirks" obj = none → o.quirks.vf_order = none) ∧
      (jsonLookup "loresDXY0Quirks" obj = none → o.quirks.lores_dxy0 = none) ∧
      (jsonLookup "resClearQuirks" obj = none → o.quirks.res_clear = none) ∧
      (jsonLookup "delayWrapQuirks" obj = none → o.quirks.delay_wrap = none) ∧
      (jsonLookup "hiresCollisionQuirks" obj = none → o.quirks.hires_collision = none) ∧
      (jsonLookup "clipCollisionQuirks" obj = none → o.quirks.clip_collision = none) ∧
      (jsonLookup "scrollQuirks" obj = none → o.quirks.scroll = none) ∧
      (jsonLookup "overflowIQuirks" obj = none → o.quirks.overflow_i = none) := by
  refine ⟨by decide, fun obj o h => ?_⟩
  obtain ⟨p1, p2, p3, p4, p5, p6, p7, p8, p9, p10, p11, p12, p13, p14, p15, p16, p17, p18, p19, p20, p21, p22, p23⟩ := decodeOptions_ok_proj h
  refine ⟨fun hk => ?_, fun hk => ?_, fun hk => ?_, fun hk => ?_, fun hk => ?_, fun hk => ?_, fun hk => ?_, fun hk => ?_, fun hk => ?_, fun hk => ?_, fun hk => ?_, fun hk => ?_, fun hk => ?_, fun hk => ?_, fun hk => ?_, fun hk => ?_, fun hk => ?_, fun hk => ?_, fun hk => ?_, fun hk => ?_, fun hk => ?_, fun hk => ?_, fun hk => ?_⟩
  · rw [decWith_absent _ _ _ hk] at p1
    exact (Except.ok.inj p1).symm
  · rw [decWith_absent _ _ _ hk] at p2
    exact (Except.ok.inj p2).symm
  · rw [decWith_absent _ _ _ hk] at p3
    exact (Except.ok.inj p3).symm
  · rw [decColorOpt_absent _ _ hk] at p4
    exact (Except.ok.inj p4).symm
  · rw [decColorOpt_absent _ _ hk] at p5
    exact (Except.ok.inj p5).symm
  · rw [decColorOpt_absent _ _ hk] at p6
    exact (Except.ok.inj p6).symm
  · rw [decColorOpt_absent _ _ hk] at p7
    exact (Except.ok.inj p7).symm
  · rw [decColorOpt_absent _ _ hk] at p8
    exact (Except.ok.inj p8).symm
  · rw [decColorOpt_absent _ _ hk] at p9
    exact (Except.ok.inj p9).symm
  · rw [decWith_absent _ _ _ hk] at p10
    exact (Except.ok.inj p10).symm
  · rw [decWith_absent _ _ _ hk] at p11
    exact (Except.ok.inj p11).symm
  · rw [decWith_absent _ _ _ hk] at p12
    exact (Except.ok.inj p12).symm
  · rw [decWith_absent _ _ _ hk] at p13
    exact (Except.ok.inj p13).symm
  · rw [decWith_absent _ _ _ hk] at p14
    exact (Except.ok.inj p14).symm
  · rw [decWith_absent _ _ _ hk] at p15
    exact (Except.ok.inj p15).symm
  · rw [decWith_absent _ _ _ hk] at p16
    exact (Except.ok.inj p16).symm
  · rw [decLoresOpt_absent _ _ hk] at p17
    exact (Except.ok.inj p17).symm
  · rw [decWith_absent _ _ _ hk] at p18
    exact (Except.ok.inj p18).symm
  · rw [decWith_absent _ _ _ hk] at p19
    exact (Except.ok.inj p19).symm
  · rw [decWith_absent _ _ _ hk] at p20
    exact (Except.ok.inj p20).symm
  · rw [decWith_absent _ _ _ hk] at p21
    exact (Except.ok.inj p21).symm
  · rw [decWith_absent _ _ _ hk] at p22
    exact (Except.ok.inj p22).symm
  · rw [decWith_absent _ _ _ hk] at p23
    exact (Except.ok.inj p23).symm

/-- Witness for C3 at the concrete document `[("maxSize", num 42)]`: the
decode succeeds and the absent `shiftQuirks` key decodes to `None`. -/
theorem C3_witness :
    ({ emptyOptions with max_size := some 42 } : Options).quirks.shift = none :=
  ((C3_empty_document_and_absent_keys.2 [("maxSize", JsonVal.num 42)]
      { emptyOptions with max_size := some 42 } (by decide)).2.2.2.2.2.2.2.2.2.1) rfl

/-- C2, counterexample: at `Options::default()` (whose `shift` quirk is
`Some(false)`), the structured serializer writes the `shiftQuirks` key as
the JSON boolean literal `false`, not as the JSON integer `0` the claim
requires. -/
theorem C2_counterexample :
    jsonLookup "shiftQuirks" (encodeOptions Options.default) = some (JsonVal.bool false) ∧
    JsonVal.bool false ≠ JsonVal.num 0 := by
  constructor
  · decide
  · decide

/-- C2, amended: the structured (JSON) serializer writes every quirk flag
holding `Some(b)` as the JSON boolean literal `true`/`false` (the `Quirks`
struct of `src/lib.rs` has no custom serializer), and omits every quirk
flag holding `None` from the output entirely. -/
theorem C2_quirks_as_booleans_none_omitted (o : Options) :
    jsonLookup "shiftQuirks" (encodeOptions o) = o.quirks.shift.map JsonVal.bool ∧
    jsonLookup "loadStoreQuirks" (encodeOptions o) = o.quirks.load_store.map JsonVal.bool ∧
    jsonLookup "jumpQuirks" (encodeOptions o) = o.quirks.jump0.map JsonVal.bool ∧
    jsonLookup "logicQuirks" (encodeOptions o) = o.quirks.logic.map JsonVal.bool ∧
    jsonLookup "clipQuirks" (encodeOptions o) = o.quirks.clip.map JsonVal.bool ∧
    jsonLookup "vBlankQuirks" (encodeOptions o) = o.quirks.vblank.map JsonVal.bool ∧
    jsonLookup "vfOrderQuirks" (encodeOptions o) = o.quirks.vf_order.map JsonVal.bool ∧
    jsonLookup "resClearQuirks" (encodeOptions o) = o.quirks.res_clear.map JsonVal.bool ∧
    jsonLookup "delayWrapQuirks" (encodeOptions o) = o.quirks.delay_wrap.map JsonVal.bool ∧
    jsonLookup "hiresCollisionQuirks" (encodeOptions o) = o.quirks.hires_collision.map JsonVal.bool ∧
    jsonLookup "clipCollisionQuirks" (encodeOptions o) = o.quirks.clip_collision.map JsonVal.bool ∧
    jsonLookup "scrollQuirks" (encodeOptions o) = o.quirks.scroll.map JsonVal.bool ∧
    jsonLookup "overflowIQuirks" (encodeOptions o) = o.quirks.overflow_i.map JsonVal.bool :=
  ⟨lookup_enc_shift o, lookup_enc_loadStore o, lookup_enc_jump0 o, lookup_enc_logic o,
    lookup_enc_clip o, lookup_enc_vblank o, lookup_enc_vfOrder o, lookup_enc_resClear o,
    lookup_enc_delayWrap o, lookup_enc_hiresCollision o, lookup_enc_clipCollision o,
    lookup_enc_scroll o, lookup_enc_overflowI o⟩

/-- C4: the structured tri-state boolean decoder yields `None` without
error when the field is absent, maps integer `1` to `Some(true)` and `0`
to `Some(false)`, fails with serde's invalid-value error carrying the
offending value for every other integer in the codec's `u8` domain, and
also fails (with the untagged-union mismatch) for integers beyond that
domain. -/
theorem C4_quirk_bool_strictness :
    (∀ obj : JsonObj, jsonLookup "shiftQuirks" obj = none →
      decWith "shiftQuirks" some_bool_from_int obj = .ok none) ∧
    some_bool_from_int (.num 1) = .ok (some true) ∧
    some_bool_from_int (.num 0) = .ok (some false) ∧
    (∀ n : Nat, n ≤ 255 → n ≠ 0 → n ≠ 1 →
      some_bool_from_int (.num (n : Int)) = .error (.invalidValue n)) ∧
    (∀ n : Int, 255 < n → some_bool_from_int (.num n) = .error .untagged) :=
  ⟨fun _ hk => decWith_absent _ _ _ hk, by decide, by decide,
    some_bool_from_int_u8, some_bool_from_int_big⟩

/-- Witness for C4 at the concrete integer `2`: decoding fails with the
invalid-value error carrying `2`. -/
theorem C4_witness : some_bool_from_int (.num 2) = .error (.invalidValue 2) :=
  C4_quirk_bool_strictness.2.2.2.1 2 (by decide) (by decide) (by decide)

/-- C5: the tolerant numeric decoder used for `tickrate`, `max_size` and
`start_address` accepts a native in-range integer, yields `Some(v)` for a
string parsing as `u16`, yields `None` silently for any string that does
not parse, and a document carrying such a string still decodes
successfully as a whole. -/
theorem C5_numeric_leniency :
    (∀ (s : String) (v : U16), parseU16 s = some v →
      some_u16_from_int_or_str (.str s) = .ok (some v)) ∧
    (∀ s : String, parseU16 s = none → some_u16_from_int_or_str (.str s) = .ok none) ∧
    (∀ n : U16, some_u16_from_int_or_str (.num (n.val : Int)) = .ok (some n)) ∧
    decodeOptions [("tickrate", .str "fast")] = .ok emptyOptions ∧
    decodeOptions [("maxSize", .str "fast")] = .ok emptyOptions ∧
    decodeOptions [("startAddress", .str "fast")] = .ok emptyOptions := by
  refine ⟨fun s v h => ?_, fun s h => ?_, some_u16_num, by decide, by decide, by decide⟩
  · rw [some_u16_str, h]
  · rw [some_u16_str, h]

/-- Witness for C5 at the concrete string `"fast"`: the decoder yields
`None` without error. -/
theorem C5_witness : some_u16_from_int_or_str (.str "fast") = .ok none :=
  C5_numeric_leniency.2.1 "fast" (by decide)

/-- C6: in the flat format, the key `colors.plane0` maps to the in-memory
`background_color` field and `colors.background` maps to `quiet_color`
(shown on both the decode and the encode side), and every color
serialized to the flat format is written as exactly six uppercase hex
digits with no leading hash marker. -/
theorem C6_flat_color_key_mapping :
    decodeOptionsIni [("colors.plane0", .str "996600")] =
      .ok (.ok { emptyOptions with
        colors := { emptyOptions.colors with background_color := some ⟨0x99, 0x66, 0x00⟩ } }) ∧
    decodeOptionsIni [("colors.background", .str "FFAA00")] =
      .ok (.ok { emptyOptions with
        colors := { emptyOptions.colors with quiet_color := some ⟨0xFF, 0xAA, 0x00⟩ } }) ∧
    (∀ o : Options,
      jsonLookup "colors.plane0" (encodeOptionsIni o) =
        o.colors.background_color.map (fun c => .str (withoutHash (colorToString c))) ∧
      jsonLookup "colors.background" (encodeOptionsIni o) =
        o.colors.quiet_color.map (fun c => .str (withoutHash (colorToString c)))) ∧
    (∀ c : Color,
      (withoutHash (colorToString c)).data =
        toHex2 c.r.val ++ toHex2 c.g.val ++ toHex2 c.b.val ∧
      (withoutHash (colorToString c)).length = 6 ∧
      (withoutHash (colorToString c)).data.all isUpperHexDigit = true) := by
  refine ⟨by decide, by decide,
    fun o => ⟨lookup_encIni_plane0 o, lookup_encIni_background o⟩,
    fun c => ⟨rfl, ?_, ?_⟩⟩
  · simp [withoutHash, colorToString, String.length, toHex2]
  · simp [withoutHash, colorToString, toHex2, hexDigitCharU_isUpperHex]

/-- C7: the flat-format round trip fails as the source wires it.  The
serializer behind `Options::to_ini` writes each quirk flag as an integer
(through `int_from_some_bool`), but the deserializer behind
`Options::from_ini` feeds every quirk value through
`String::deserialize`, which rejects an integer with a type error, so
decoding the serializer's own output of `Options::default()` errors at
`quirks.shift` instead of returning the original value. -/
theorem C7_flat_roundtrip_fails_on_default :
    jsonLookup "quirks.shift" (encodeOptionsIni Options.default) = some (JsonVal.num 0) ∧
    decodeOptionsIni (encodeOptionsIni Options.default) = .ok (.error .invalidType) := by
  constructor
  · decide
  · decide

/-- C9: the flat-format tri-state boolean decoder panics (crashes) on a
value string that does not parse as `u8` — the `.parse::<u8>().unwrap()`
of `src/ini.rs` — rather than returning an error to the caller; the
integer-out-of-{0,1} branch does return the invalid-value error, and
`1`/`0` decode normally. -/
theorem C9_ini_bool_decoder :
    iniSomeBoolFromInt "yes" = .panics ∧
    decodeOptionsIni [("quirks.shift", .str "yes")] = .panics ∧
    iniSomeBoolFromInt "2" = .ok (.error (.invalidValue 2)) ∧
    iniSomeBoolFromInt "1" = .ok (.ok (some true)) ∧
    iniSomeBoolFromInt "0" = .ok (.ok (some false)) := by
  refine ⟨by decide, by decide, by decide, by decide, by decide⟩

/-- C8: color parsing maps both `"#FF0000"` and the bare hex `"FF0000"`
to red (the `'#'`-prepending retry of `Color::from_str`), and formatting
any color yields `'#'` followed by exactly six uppercase hex digits in
R, G, B order. -/
theorem C8_color_parse_format :
    colorFromStr "#FF0000" = some ⟨255, 0, 0⟩ ∧
    colorFromStr "FF0000" = some ⟨255, 0, 0⟩ ∧
    cssParseColor "FF0000" = none ∧
    colorToString ⟨255, 0, 0⟩ = "#FF0000" ∧
    (∀ c : Color,
      (colorToString c).data =
        '#' :: (toHex2 c.r.val ++ toHex2 c.g.val ++ toHex2 c.b.val) ∧
      (colorToString c).length = 7 ∧
      ((colorToString c).data.drop 1).all isUpperHexDigit = true) := by
  refine ⟨by decide, by decide, by decide, by decide, fun c => ⟨rfl, ?_, ?_⟩⟩
  · simp [colorToString, String.length, toHex2]
  · simp [colorToString, toHex2, hexDigitCharU_isUpperHex]

/-- C10: the `Default` impls yield `tickrate = Some(500)`, `max_size =
Some(3584)`, `start_address = Some(512)`, the fixed color palette, and
every quirk flag `Some(false)` except `res_clear = Some(true)` and
`lores_dxy0 = Some(BigSprite)` — a value distinct from the all-`None`
result of decoding the empty document. -/
theorem C10_default_options :
    Options.default =
      { tickrate := some 500
        max_size := some 3584
        screen_rotation := ScreenRotation.Normal
        font_style := Font.Octo
        touch_input_mode := TouchMode.None
        start_address := some 512
        colors :=
          { fill_color := some ⟨0xFF, 0xFF, 0xFF⟩
            fill_color2 := some ⟨0xFF, 0xFF, 0x00⟩
            blend_color := some ⟨0xFF, 0x00, 0x00⟩
            background_color := some ⟨0x00, 0x00, 0x00⟩
            buzz_color := some ⟨0x99, 0x00, 0x00⟩
            quiet_color := some ⟨0x33, 0x00, 0x00⟩ }
        quirks :=
          { shift := some false, load_store := some false, jump0 := some false
            logic := some false, clip := some false, vblank := some false
            vf_order := some false, lores_dxy0 := some LoResDxy0Behavior.BigSprite
            res_clear := some true, delay_wrap := some false
            hires_collision := some false, clip_collision := some false
            scroll := some false, overflow_i := some false } } ∧
    decodeOptions [] = .ok emptyOptions ∧
    Options.default ≠ emptyOptions := by
  refine ⟨by decide, by decide, by decide⟩
